import Mathlib

/-!
Shallow embedding of the environment-lifecycle orchestrator of
`mani_skill/envs/sapien_env.py` (class `BaseEnv`): reward dispatch, reset
protocol, step protocol, RNG seeding and the frequency configuration.

External collaborators (the SAPIEN physics/render engine, torch tensors,
numpy generator internals, task hooks) are abstracted: per-replica tensors
become Lean lists of length `num_envs`, the number of `scene.step()`
invocations is tracked by a counter, and a scene teardown/rebuild is
tracked by a scene-generation counter.
-/

namespace ManiSkill

/-- Abstraction of a `np.random.RandomState` generator: the seed it was
initialized from and the position in its stream. The concrete Mersenne
Twister output values are external to the repository; only seeding and
stream advancement are tracked, with a stand-in value function for draws
(no claim depends on the drawn values). -/
structure Rng where
  seed : Nat
  pos : Nat
deriving Repr, DecidableEq

/-- Models `np.random.RandomState(seed)`. -/
def rngInit (seed : Nat) : Rng := ⟨seed, 0⟩

/-- Models `rng.randint(2**31)`: draws a value in `[0, 2^31)` and advances
the stream. The value function is a stand-in for the external generator. -/
def rngDraw (r : Rng) : Nat × Rng :=
  ((r.seed + r.pos) % 2 ^ 31, ⟨r.seed, r.pos + 1⟩)

/-- The success/fail content of the `info` dictionary produced by
`get_info` (line 856): the task hook `evaluate()` may supply a `success`
and/or a `fail` boolean vector (one entry per replica). Other info entries
(`elapsed_steps`, task diagnostics) do not influence the reward or
termination logic modeled here. -/
structure Info where
  success : Option (List Bool)
  fail : Option (List Bool)
deriving Repr, DecidableEq

/-- The reward modes of `SUPPORTED_REWARD_MODES` dispatched on in
`get_reward` (line 475). -/
inductive RewardMode where
  | sparse
  | dense
  | normalized_dense
  | none
deriving Repr, DecidableEq

/-- The orchestrator state of `BaseEnv` restricted to the fields the
lifecycle bookkeeping reads and writes. `scene_version` counts executions
of the scene teardown/rebuild `_reconfigure` (the rebuilt scene, agent and
sensors live in the external engine); `physics_steps` counts invocations
of the external `scene.step()`. -/
structure EnvState where
  num_envs : Nat
  reconfiguration_freq : Nat
  reconfig_counter : Int
  elapsed_steps : List Nat
  reset_mask : List Bool
  main_seed : Option Nat
  main_rng : Rng
  episode_seed : Nat
  episode_rng : Rng
  scene_version : Nat
  physics_steps : Nat
  sim_steps_per_control : Nat
  reward_mode : RewardMode
deriving Repr, DecidableEq

/-- Models casting one boolean tensor element to a numeric value, as in
`info["success"].to(torch.float)` (line 497). -/
def boolToInt (b : Bool) : Int := if b then 1 else 0

/-- Translation of `compute_sparse_reward` (lines 490-507): with both keys
the reward is success minus fail elementwise; with only `success` it is
the success indicator; with only `fail` it is the negated fail indicator;
with neither it is an all-zero vector of length `num_envs`. -/
def compute_sparse_reward (num_envs : Nat) (info : Info) : List Int :=
  match info.success with
  | some s =>
    match info.fail with
    | some f => List.zipWith (fun a b => boolToInt a - boolToInt b) s f
    | Option.none => s.map boolToInt
  | Option.none =>
    match info.fail with
    | some f => f.map (fun b => -boolToInt b)
    | Option.none => List.replicate num_envs 0

/-- Translation of `get_reward` (lines 475-488). The `dense` and
`normalized_dense` hooks of the base class raise `NotImplementedError`
(lines 509-515); the `none` mode yields an all-zero vector. -/
def get_reward (env : EnvState) (info : Info) : Except String (List Int) :=
  match env.reward_mode with
  | RewardMode.sparse => .ok (compute_sparse_reward env.num_envs info)
  | RewardMode.dense => .error "NotImplementedError"
  | RewardMode.normalized_dense => .error "NotImplementedError"
  | RewardMode.none => .ok (List.replicate env.num_envs 0)

/-- The recognized `reset` options (line 637): an explicit reconfigure
request (`options.get("reconfigure", False)`) and an optional replica
index subset (`options["env_idx"]`). -/
structure ResetOptions where
  reconfigure : Bool
  env_idx : Option (List Nat)
deriving Repr, DecidableEq

/-- Translation of `_set_main_rng` (lines 719-731). `fresh` stands for the
entropy of `np.random.RandomState().randint(2**31)` drawn when no seed is
given and no main seed exists yet. -/
def set_main_rng (env : EnvState) (seed : Option Nat) (fresh : Nat) : EnvState :=
  match seed with
  | Option.none =>
    match env.main_seed with
    | some _ => env
    | Option.none =>
      let s := fresh % 2 ^ 31
      { env with main_seed := some s, main_rng := rngInit s }
  | some s => { env with main_seed := some s, main_rng := rngInit s }

/-- Translation of `_set_episode_rng` (lines 733-739): with no seed the
episode seed is drawn off the main generator, else the given seed is used;
either way the episode generator is re-initialized from it. -/
def set_episode_rng (env : EnvState) (seed : Option Nat) : EnvState :=
  match seed with
  | Option.none =>
    let d := rngDraw env.main_rng
    { env with main_rng := d.2, episode_seed := d.1, episode_rng := rngInit d.1 }
  | some s => { env with episode_seed := s, episode_rng := rngInit s }

/-- Translation of `_reconfigure` (lines 520-552): `_clear`,
`_setup_scene`, `_load_agent`, `_load_scene`, `_load_lighting` and
`_setup_sensors` tear down and rebuild objects living in the external
engine, tracked here as one scene-generation increment; the last
bookkeeping effect is `self._reconfig_counter = self.reconfiguration_freq`
(line 546). -/
def reconfigure_env (env : EnvState) : EnvState :=
  { env with scene_version := env.scene_version + 1,
             reconfig_counter := (env.reconfiguration_freq : Int) }

/-- Models the fancy-index assignment `self._elapsed_steps[env_idx] = 0`
(line 695) on a counter vector, starting at position `pos`. -/
def zero_at_from (pos : Nat) (l : List Nat) (idx : List Nat) : List Nat :=
  match l with
  | [] => []
  | v :: rest => (if pos ∈ idx then 0 else v) :: zero_at_from (pos + 1) rest idx

/-- Models `self._elapsed_steps[env_idx] = 0` (line 695). -/
def zero_at (l : List Nat) (idx : List Nat) : List Nat := zero_at_from 0 l idx

/-- Models building the restricted reset mask (lines 686-689): a length-`n`
all-false vector with positions in `env_idx` set to true. -/
def mask_from_idx (n : Nat) (idx : List Nat) : List Bool :=
  (List.range n).map (fun i => decide (i ∈ idx))

/-- Translation of the tail of `reset` (lines 697-709): `_clear_sim_state`
zeroes velocities held by the external engine; the reconfiguration counter
is decremented when a nonzero frequency is configured (lines 698-699); the
episode generator is re-seeded a second time from the same episode seed
(line 701); `agent.reset()` and the `_initialize_episode` task hook act on
external state inside a forked torch RNG context; finally the reset mask
is restored to all ones (lines 707-709). -/
def finish_reset (env : EnvState) : EnvState :=
  let env1 := if env.reconfiguration_freq ≠ 0 then
      { env with reconfig_counter := env.reconfig_counter - 1 }
    else env
  let env2 := set_episode_rng env1 (some env1.episode_seed)
  { env2 with reset_mask := List.replicate env2.num_envs true }

/-- The reconfiguration trigger of `reset` (lines 669-672): an explicit
request, or a zero reconfiguration counter combined with a nonzero
configured reconfiguration frequency. -/
def reconfigure_flag (env : EnvState) (options : ResetOptions) : Bool :=
  options.reconfigure ||
    (decide (env.reconfig_counter = 0) && decide (env.reconfiguration_freq ≠ 0))

/-- Translation of the body of `reset` from the `env_idx` handling onward
(lines 682-717), over the state `env3` reached after the RNG setup and the
conditional reconfiguration: the partial-reset-plus-reconfigure
`RuntimeError` (lines 684-685, raised before the mask or the counters are
touched), the reset-mask restriction, the elapsed-step zeroing, and the
shared tail `finish_reset`. -/
def reset_core (env3 : EnvState) (reconfigure : Bool)
    (oidx : Option (List Nat)) : EnvState × Except String Bool :=
  match oidx with
  | some env_idx =>
    if env_idx.length ≠ env3.num_envs ∧ reconfigure = true then
      (env3, .error "Cannot do a partial reset and reconfigure the environment. You must do one or the other.")
    else
      (finish_reset { env3 with
          reset_mask := mask_from_idx env3.num_envs env_idx,
          elapsed_steps := zero_at env3.elapsed_steps env_idx },
        .ok reconfigure)
  | Option.none =>
    (finish_reset { env3 with
        reset_mask := List.replicate env3.num_envs true,
        elapsed_steps := zero_at env3.elapsed_steps (List.range env3.num_envs) },
      .ok reconfigure)

/-- Translation of `reset` (lines 637-717). The returned `Except` payload
is the `reconfigure` entry of the returned info dictionary; a raised
`RuntimeError` becomes an `.error`, with the mutated state at raise time
threaded through as the first component. Observation assembly (`get_obs`)
reads external sensor/agent state and is not tracked. -/
def reset (env : EnvState) (seed : Option Nat) (options : ResetOptions)
    (fresh : Nat) : EnvState × Except String Bool :=
  let env1 := set_main_rng env seed fresh
  let env2 := set_episode_rng env1 seed
  let reconfigure := options.reconfigure ||
      (decide (env2.reconfig_counter = 0) && decide (env2.reconfiguration_freq ≠ 0))
  let env3 := if reconfigure then reconfigure_env env2 else env2
  reset_core env3 reconfigure options.env_idx

/-- Models the `__init__` frequency setup (lines 224-231): a non-divisible
`sim_freq`/`control_freq` pair produces a logger warning (first component)
but never an error, and the stored sub-step count is the floor division
`self._sim_freq // self._control_freq`. -/
def init_freq_result (sim_freq control_freq : Nat) : Bool × Nat :=
  (decide (sim_freq % control_freq ≠ 0), sim_freq / control_freq)

/-- Translation of `_step_action` (lines 794-842) restricted to its effect
on the modeled state: the sub-step loop (lines 834-838) invokes the
external `scene.step()` exactly `self._sim_steps_per_control` times.
Action validation/dispatch and controller writes act on external agent
state. -/
def step_action (env : EnvState) : EnvState :=
  { env with physics_steps := env.physics_steps + env.sim_steps_per_control }

/-- Translation of the terminated computation inlined in `step`
(lines 774-784): logical OR of both outcome vectors when both are present,
the present one alone otherwise, an all-false vector when neither key
exists. -/
def compute_terminated (num_envs : Nat) (info : Info) : List Bool :=
  match info.success with
  | some s =>
    match info.fail with
    | some f => List.zipWith or s f
    | Option.none => s
  | Option.none =>
    match info.fail with
    | some f => f
    | Option.none => List.replicate num_envs false

/-- The `(reward, terminated, truncated)` portion of the tuple returned by
`step`; the observation is assembled from external sensor state and not
tracked. -/
structure StepOut where
  reward : List Int
  terminated : List Bool
  truncated : List Bool
deriving Repr, DecidableEq

/-- Translation of `step` (lines 765-792): apply the action and run the
physics sub-steps, increment every replica's elapsed-step counter
(`self._elapsed_steps += 1`, line 770), assemble `info` from the task
`evaluate()` outcome (passed in as `eval_info`, since `evaluate` is an
overridable hook), compute the reward (whose `NotImplementedError` for
unimplemented dense hooks propagates after the counters were already
updated), then terminated and an all-false truncated vector. -/
def step (env : EnvState) (eval_info : Info) : EnvState × Except String StepOut :=
  let env1 := step_action env
  let env2 := { env1 with elapsed_steps := env1.elapsed_steps.map (· + 1) }
  match get_reward env2 eval_info with
  | .error e => (env2, .error e)
  | .ok reward =>
    (env2, .ok { reward := reward,
                 terminated := compute_terminated env2.num_envs eval_info,
                 truncated := List.replicate env2.num_envs false })

/-- Folds `step` over a list of per-step `evaluate()` outcomes, tracking
the environment state across consecutive `step` calls. -/
def run_steps (env : EnvState) (infos : List Info) : EnvState :=
  infos.foldl (fun e i => (step e i).1) env

/-- Spec-side definition, from the spec words of step protocol item 6:
terminated is the element-wise logical OR of `info["success"]` and
`info["fail"]`, an absent key being treated as an all-false vector. Used
only for comparison against the code-side `compute_terminated`. -/
def terminated_spec (num_envs : Nat) (info : Info) : List Bool :=
  List.zipWith or (info.success.getD (List.replicate num_envs false))
    (info.fail.getD (List.replicate num_envs false))

/-- A concrete one-replica environment state used by witness theorems. -/
def sampleEnvA : EnvState :=
  ⟨1, 0, 0, [0], [true], some 2022, rngInit 2022, 0, rngInit 0, 0, 0, 5,
    RewardMode.sparse⟩

/-- A concrete two-replica environment state with a nonzero
reconfiguration frequency, used by witness theorems. -/
def sampleEnvB : EnvState :=
  ⟨2, 2, 0, [3, 4], [true, true], some 7, rngInit 7, 0, rngInit 0, 0, 0, 5,
    RewardMode.sparse⟩

/-! Helper lemmas about list indexing with `getD`. -/

theorem getD_zipWith {α β γ : Type} (g : α → β → γ) (da : α) (db : β) (dc : γ)
    (s : List α) (t : List β) (j : Nat) (h1 : j < s.length) (h2 : j < t.length) :
    (List.zipWith g s t).getD j dc = g (s.getD j da) (t.getD j db) := by
  induction s generalizing t j with
  | nil => simp at h1
  | cons a as ih =>
    cases t with
    | nil => simp at h2
    | cons b bs =>
      cases j with
      | zero => simp [List.getD_cons_zero]
      | succ m =>
        simp only [List.zipWith, List.getD_cons_succ]
        exact ih bs m (by simpa using h1) (by simpa using h2)

theorem getD_map {α β : Type} (g : α → β) (da : α) (db : β)
    (s : List α) (j : Nat) (h : j < s.length) :
    (s.map g).getD j db = g (s.getD j da) := by
  induction s generalizing j with
  | nil => simp at h
  | cons a as ih =>
    cases j with
    | zero => simp [List.getD_cons_zero]
    | succ m =>
      simp only [List.map, List.getD_cons_succ]
      exact ih m (by simpa using h)

theorem getD_replicate {α : Type} (a d : α) (n j : Nat) (h : j < n) :
    (List.replicate n a).getD j d = a := by
  induction n generalizing j with
  | zero => simp at h
  | succ m ih =>
    cases j with
    | zero => simp [List.replicate, List.getD_cons_zero]
    | succ k =>
      simp only [List.replicate, List.getD_cons_succ]
      exact ih k (by omega)

theorem zipWith_or_repl_right (s : List Bool) :
    List.zipWith or s (List.replicate s.length false) = s := by
  induction s with
  | nil => rfl
  | cons a as ih => simp [List.replicate, ih]

theorem zipWith_or_repl_left (s : List Bool) :
    List.zipWith or (List.replicate s.length false) s = s := by
  induction s with
  | nil => rfl
  | cons a as ih => simp [List.replicate, ih]

theorem zipWith_or_repl_both (n : Nat) :
    List.zipWith or (List.replicate n false) (List.replicate n false) =
      List.replicate n false := by
  induction n with
  | zero => rfl
  | succ m ih => simp [List.replicate, ih]

theorem getD_zero_at_from (pos j : Nat) (l idx : List Nat) (h : j < l.length) :
    (zero_at_from pos l idx).getD j 0 =
      if pos + j ∈ idx then 0 else l.getD j 0 := by
  induction l generalizing pos j with
  | nil => simp at h
  | cons v rest ih =>
    cases j with
    | zero => simp [zero_at_from, List.getD_cons_zero]
    | succ m =>
      simp only [zero_at_from, List.getD_cons_succ]
      rw [ih (pos + 1) m (by simpa using h)]
      have hadd : pos + 1 + m = pos + (m + 1) := by omega
      rw [hadd]

theorem getD_zero_at (j : Nat) (l idx : List Nat) (h : j < l.length) :
    (zero_at l idx).getD j 0 = if j ∈ idx then 0 else l.getD j 0 := by
  have := getD_zero_at_from 0 j l idx h
  simpa using this

theorem zero_at_from_range (l : List Nat) (pos n : Nat) (h : pos + l.length ≤ n) :
    zero_at_from pos l (List.range n) = List.replicate l.length 0 := by
  induction l generalizing pos with
  | nil => rfl
  | cons v rest ih =>
    have hmem : pos ∈ List.range n := by
      rw [List.mem_range]
      simp only [List.length_cons] at h
      omega
    simp only [zero_at_from, if_pos hmem, List.length_cons, List.replicate]
    rw [ih (pos + 1) (by simp only [List.length_cons] at h; omega)]

theorem zero_at_range (l : List Nat) (n : Nat) (h : l.length ≤ n) :
    zero_at l (List.range n) = List.replicate l.length 0 := by
  exact zero_at_from_range l 0 n (by omega)

/-! Projection lemmas: which `EnvState` fields each lifecycle helper
preserves or sets. -/

@[simp] theorem set_main_rng_num_envs (env : EnvState) (seed : Option Nat) (fresh : Nat) :
    (set_main_rng env seed fresh).num_envs = env.num_envs := by
  cases seed with
  | none => cases h : env.main_seed <;> simp [set_main_rng, h]
  | some s => simp [set_main_rng]

@[simp] theorem set_main_rng_counter (env : EnvState) (seed : Option Nat) (fresh : Nat) :
    (set_main_rng env seed fresh).reconfig_counter = env.reconfig_counter := by
  cases seed with
  | none => cases h : env.main_seed <;> simp [set_main_rng, h]
  | some s => simp [set_main_rng]

@[simp] theorem set_main_rng_freq (env : EnvState) (seed : Option Nat) (fresh : Nat) :
    (set_main_rng env seed fresh).reconfiguration_freq = env.reconfiguration_freq := by
  cases seed with
  | none => cases h : env.main_seed <;> simp [set_main_rng, h]
  | some s => simp [set_main_rng]

@[simp] theorem set_main_rng_elapsed (env : EnvState) (seed : Option Nat) (fresh : Nat) :
    (set_main_rng env seed fresh).elapsed_steps = env.elapsed_steps := by
  cases seed with
  | none => cases h : env.main_seed <;> simp [set_main_rng, h]
  | some s => simp [set_main_rng]

@[simp] theorem set_main_rng_scene (env : EnvState) (seed : Option Nat) (fresh : Nat) :
    (set_main_rng env seed fresh).scene_version = env.scene_version := by
  cases seed with
  | none => cases h : env.main_seed <;> simp [set_main_rng, h]
  | some s => simp [set_main_rng]

@[simp] theorem set_episode_rng_num_envs (env : EnvState) (seed : Option Nat) :
    (set_episode_rng env seed).num_envs = env.num_envs := by
  cases seed <;> simp [set_episode_rng]

@[simp] theorem set_episode_rng_counter (env : EnvState) (seed : Option Nat) :
    (set_episode_rng env seed).reconfig_counter = env.reconfig_counter := by
  cases seed <;> simp [set_episode_rng]

@[simp] theorem set_episode_rng_freq (env : EnvState) (seed : Option Nat) :
    (set_episode_rng env seed).reconfiguration_freq = env.reconfiguration_freq := by
  cases seed <;> simp [set_episode_rng]

@[simp] theorem set_episode_rng_elapsed (env : EnvState) (seed : Option Nat) :
    (set_episode_rng env seed).elapsed_steps = env.elapsed_steps := by
  cases seed <;> simp [set_episode_rng]

@[simp] theorem set_episode_rng_scene (env : EnvState) (seed : Option Nat) :
    (set_episode_rng env seed).scene_version = env.scene_version := by
  cases seed <;> simp [set_episode_rng]

@[simp] theorem reconfigure_env_num_envs (env : EnvState) :
    (reconfigure_env env).num_envs = env.num_envs := by
  simp [reconfigure_env]

@[simp] theorem reconfigure_env_counter (env : EnvState) :
    (reconfigure_env env).reconfig_counter = (env.reconfiguration_freq : Int) := by
  simp [reconfigure_env]

@[simp] theorem reconfigure_env_freq (env : EnvState) :
    (reconfigure_env env).reconfiguration_freq = env.reconfiguration_freq := by
  simp [reconfigure_env]

@[simp] theorem reconfigure_env_elapsed (env : EnvState) :
    (reconfigure_env env).elapsed_steps = env.elapsed_steps := by
  simp [reconfigure_env]

@[simp] theorem reconfigure_env_scene (env : EnvState) :
    (reconfigure_env env).scene_version = env.scene_version + 1 := by
  simp [reconfigure_env]

@[simp] theorem finish_reset_num_envs (env : EnvState) :
    (finish_reset env).num_envs = env.num_envs := by
  unfold finish_reset
  split <;> simp [set_episode_rng]

@[simp] theorem finish_reset_elapsed (env : EnvState) :
    (finish_reset env).elapsed_steps = env.elapsed_steps := by
  unfold finish_reset
  split <;> simp [set_episode_rng]

@[simp] theorem finish_reset_scene (env : EnvState) :
    (finish_reset env).scene_version = env.scene_version := by
  unfold finish_reset
  split <;> simp [set_episode_rng]

@[simp] theorem finish_reset_mask (env : EnvState) :
    (finish_reset env).reset_mask = List.replicate env.num_envs true := by
  unfold finish_reset
  split <;> simp [set_episode_rng]

/-! Shape lemmas for `reset` and `reset_core`. -/

theorem reset_eq_core (env : EnvState) (seed : Option Nat) (rc : Bool)
    (oidx : Option (List Nat)) (fresh : Nat) :
    reset env seed ⟨rc, oidx⟩ fresh =
      reset_core
        (if reconfigure_flag env ⟨rc, oidx⟩ then
          reconfigure_env (set_episode_rng (set_main_rng env seed fresh) seed)
        else set_episode_rng (set_main_rng env seed fresh) seed)
        (reconfigure_flag env ⟨rc, oidx⟩) oidx := by
  simp [reset, reconfigure_flag]

theorem reset_core_fst_num_envs (e : EnvState) (r : Bool)
    (oidx : Option (List Nat)) :
    (reset_core e r oidx).1.num_envs = e.num_envs := by
  cases oidx with
  | none => simp [reset_core]
  | some idx =>
    simp only [reset_core]
    split <;> simp

theorem reset_core_fst_scene (e : EnvState) (r : Bool)
    (oidx : Option (List Nat)) :
    (reset_core e r oidx).1.scene_version = e.scene_version := by
  cases oidx with
  | none => simp [reset_core]
  | some idx =>
    simp only [reset_core]
    split <;> simp

theorem reset_core_ok_mask (e : EnvState) (r b : Bool)
    (oidx : Option (List Nat)) (h : (reset_core e r oidx).2 = Except.ok b) :
    (reset_core e r oidx).1.reset_mask = List.replicate e.num_envs true := by
  cases oidx with
  | none => simp [reset_core]
  | some idx =>
    simp only [reset_core] at h ⊢
    split at h
    · simp at h
    · simp [reset_core]
      split
      · simp_all
      · simp

theorem env3_num_envs (env : EnvState) (seed : Option Nat)
    (options : ResetOptions) (fresh : Nat) :
    (if reconfigure_flag env options then
        reconfigure_env (set_episode_rng (set_main_rng env seed fresh) seed)
      else set_episode_rng (set_main_rng env seed fresh) seed).num_envs =
      env.num_envs := by
  split <;> simp

theorem env3_elapsed (env : EnvState) (seed : Option Nat)
    (options : ResetOptions) (fresh : Nat) :
    (if reconfigure_flag env options then
        reconfigure_env (set_episode_rng (set_main_rng env seed fresh) seed)
      else set_episode_rng (set_main_rng env seed fresh) seed).elapsed_steps =
      env.elapsed_steps := by
  split <;> simp

theorem env3_scene (env : EnvState) (seed : Option Nat)
    (options : ResetOptions) (fresh : Nat) :
    (if reconfigure_flag env options then
        reconfigure_env (set_episode_rng (set_main_rng env seed fresh) seed)
      else set_episode_rng (set_main_rng env seed fresh) seed).scene_version =
      (if reconfigure_flag env options then env.scene_version + 1
        else env.scene_version) := by
  split <;> simp

theorem reset_core_error (e : EnvState) (r : Bool) (idx : List Nat)
    (hlen : idx.length ≠ e.num_envs) (hr : r = true) :
    reset_core e r (some idx) =
      (e, Except.error "Cannot do a partial reset and reconfigure the environment. You must do one or the other.") := by
  simp [reset_core, hlen, hr]

theorem reset_core_none_elapsed (e : EnvState) (r : Bool) :
    (reset_core e r Option.none).1.elapsed_steps =
      zero_at e.elapsed_steps (List.range e.num_envs) := by
  simp [reset_core]

theorem reset_core_some_ok_elapsed (e : EnvState) (r b : Bool) (idx : List Nat)
    (h : (reset_core e r (some idx)).2 = Except.ok b) :
    (reset_core e r (some idx)).1.elapsed_steps = zero_at e.elapsed_steps idx := by
  simp only [reset_core] at h ⊢
  split at h
  · simp at h
  · simp [reset_core]
    split
    · simp_all
    · simp

/-! Shape lemmas for `step`. -/

theorem step_fst (env : EnvState) (info : Info) :
    (step env info).1.elapsed_steps = env.elapsed_steps.map (· + 1) ∧
    (step env info).1.physics_steps =
      env.physics_steps + env.sim_steps_per_control ∧
    (step env info).1.num_envs = env.num_envs := by
  simp only [step, step_action]
  split <;> simp

theorem step_ok_out (env : EnvState) (info : Info) (out : StepOut)
    (h : (step env info).2 = Except.ok out) :
    out.terminated = compute_terminated env.num_envs info ∧
    out.truncated = List.replicate env.num_envs false := by
  simp only [step, step_action] at h
  split at h
  · simp at h
  · simp at h
    subst h
    exact ⟨rfl, rfl⟩

theorem run_steps_elapsed (infos : List Info) (e : EnvState) :
    (run_steps e infos).elapsed_steps =
      e.elapsed_steps.map (fun x => x + infos.length) := by
  induction infos generalizing e with
  | nil => simp [run_steps]
  | cons i rest ih =>
    show (run_steps (step e i).1 rest).elapsed_steps = _
    rw [ih]
    rw [(step_fst e i).1]
    rw [List.map_map]
    simp only [List.length_cons]
    congr 1
    funext x
    simp [Function.comp]
    omega

theorem compute_terminated_eq_spec (N : Nat) (info : Info)
    (hs : ∀ s, info.success = some s → s.length = N)
    (hf : ∀ f, info.fail = some f → f.length = N) :
    compute_terminated N info = terminated_spec N info := by
  obtain ⟨os, of⟩ := info
  cases os with
  | none =>
    cases of with
    | none =>
      simp [compute_terminated, terminated_spec, zipWith_or_repl_both]
    | some f =>
      have hfl : f.length = N := hf f rfl
      simp [compute_terminated, terminated_spec]
      rw [← hfl, zipWith_or_repl_left]
  | some s =>
    have hsl : s.length = N := hs s rfl
    cases of with
    | none =>
      simp [compute_terminated, terminated_spec]
      rw [← hsl, zipWith_or_repl_right]
    | some f =>
      simp [compute_terminated, terminated_spec]

/-! Claim theorems. -/

/-- C1: with `reward_mode="sparse"`, `get_reward` derives the reward via
`compute_sparse_reward`; a replica whose `info["success"]` is true and
`info["fail"]` is false gets reward +1, a replica whose success is false
and fail is true gets -1, and with neither key present in `info` every
replica gets reward 0. -/
theorem C1_sparse_reward_contract (env : EnvState) (s f : List Bool) (j : Nat)
    (hmode : env.reward_mode = RewardMode.sparse)
    (hs : s.length = env.num_envs) (hf : f.length = env.num_envs)
    (hj : j < env.num_envs) :
    get_reward env ⟨some s, some f⟩ =
      Except.ok (compute_sparse_reward env.num_envs ⟨some s, some f⟩) ∧
    (s.getD j false = true → f.getD j false = false →
      (compute_sparse_reward env.num_envs ⟨some s, some f⟩).getD j 0 = 1) ∧
    (s.getD j false = false → f.getD j false = true →
      (compute_sparse_reward env.num_envs ⟨some s, some f⟩).getD j 0 = -1) ∧
    get_reward env ⟨Option.none, Option.none⟩ =
      Except.ok (List.replicate env.num_envs 0) := by
  refine ⟨?_, ?_, ?_, ?_⟩
  · simp [get_reward, hmode]
  · intro h1 h2
    simp only [compute_sparse_reward]
    rw [getD_zipWith (fun a b => boolToInt a - boolToInt b) false false 0 s f j
      (by omega) (by omega)]
    rw [h1, h2]
    rfl
  · intro h1 h2
    simp only [compute_sparse_reward]
    rw [getD_zipWith (fun a b => boolToInt a - boolToInt b) false false 0 s f j
      (by omega) (by omega)]
    rw [h1, h2]
    rfl
  · simp [get_reward, hmode, compute_sparse_reward]

/-- Witness for C1 at a concrete one-replica environment: success with no
failure yields +1, and an info record with neither key yields reward 0. -/
theorem C1_witness :
    (compute_sparse_reward 1 ⟨some [true], some [false]⟩).getD 0 0 = 1 ∧
    get_reward sampleEnvA ⟨Option.none, Option.none⟩ = Except.ok [0] := by
  have h := C1_sparse_reward_contract sampleEnvA [true] [false] 0 rfl rfl rfl
    (by decide)
  exact ⟨h.2.1 rfl rfl, by simpa using h.2.2.2⟩

/-- C10: with only the `success` key present, `compute_sparse_reward`
returns the success indicator itself (1 for a successful replica, 0
otherwise, never -1); with only the `fail` key present it returns the
negated fail indicator (-1 for a failed replica, 0 otherwise, never +1). -/
theorem C10_sparse_reward_single_key (N : Nat) (s f : List Bool) (j : Nat)
    (hjs : j < s.length) (hjf : j < f.length) :
    compute_sparse_reward N ⟨some s, Option.none⟩ = s.map boolToInt ∧
    compute_sparse_reward N ⟨Option.none, some f⟩ =
      f.map (fun b => -boolToInt b) ∧
    (compute_sparse_reward N ⟨some s, Option.none⟩).getD j 0 =
      (if s.getD j false then 1 else 0) ∧
    (compute_sparse_reward N ⟨Option.none, some f⟩).getD j 0 =
      (if f.getD j false then -1 else 0) := by
  refine ⟨rfl, rfl, ?_, ?_⟩
  · simp only [compute_sparse_reward]
    rw [getD_map boolToInt false 0 s j hjs]
    rfl
  · simp only [compute_sparse_reward]
    rw [getD_map (fun b => -boolToInt b) false 0 f j hjf]
    cases f.getD j false <;> rfl

/-- Witness for C10: one successful replica with no fail key gets 1, one
failed replica with no success key gets -1. -/
theorem C10_witness :
    (compute_sparse_reward 1 ⟨some [true], Option.none⟩).getD 0 0 = 1 ∧
    (compute_sparse_reward 1 ⟨Option.none, some [true]⟩).getD 0 0 = -1 := by
  have h := C10_sparse_reward_single_key 1 [true] [true] 0 (by decide) (by decide)
  exact ⟨by simpa using h.2.2.1, by simpa using h.2.2.2⟩

/-- C2: every `reset` call that returns — including a partial reset whose
`options["env_idx"]` is a strict subset of the replicas — leaves the
scene's reset mask restored to the all-active, length-`num_envs` all-true
mask, so subsequent full-batch state-mutating operations affect all
replicas. -/
theorem C2_reset_mask_restored (env : EnvState) (seed : Option Nat)
    (options : ResetOptions) (fresh : Nat) (b : Bool)
    (h : (reset env seed options fresh).2 = Except.ok b) :
    (reset env seed options fresh).1.reset_mask =
      List.replicate env.num_envs true ∧
    (reset env seed options fresh).1.num_envs = env.num_envs := by
  obtain ⟨rc, oidx⟩ := options
  rw [reset_eq_core] at h ⊢
  constructor
  · rw [reset_core_ok_mask _ _ b _ h]
    rw [env3_num_envs]
  · rw [reset_core_fst_num_envs, env3_num_envs]

/-- Witness for C2: a partial reset of the empty subset on a one-replica
environment returns successfully with the mask restored to all-true. -/
theorem C2_witness :
    (reset sampleEnvA Option.none ⟨false, some []⟩ 0).1.reset_mask =
      List.replicate sampleEnvA.num_envs true :=
  (C2_reset_mask_restored sampleEnvA Option.none ⟨false, some []⟩ 0 false
    rfl).1

/-- C3: a `reset` whose `options["env_idx"]` selects strictly fewer than
`num_envs` replicas while reconfiguration is triggered (explicitly
requested, or because the reconfiguration counter is zero with a nonzero
configured frequency) fails with the partial-reset-plus-reconfigure
`RuntimeError` instead of completing. -/
theorem C3_subset_reconfigure_error (env : EnvState) (seed : Option Nat)
    (fresh : Nat) (rc : Bool) (idx : List Nat)
    (hlen : idx.length < env.num_envs)
    (htrig : rc = true ∨
      (env.reconfig_counter = 0 ∧ env.reconfiguration_freq ≠ 0)) :
    (reset env seed ⟨rc, some idx⟩ fresh).2 =
      Except.error "Cannot do a partial reset and reconfigure the environment. You must do one or the other." := by
  have hflag : reconfigure_flag env ⟨rc, some idx⟩ = true := by
    rcases htrig with h | ⟨h1, h2⟩
    · simp [reconfigure_flag, h]
    · simp [reconfigure_flag, h1, h2]
  have hne : idx.length ≠
      (reconfigure_env (set_episode_rng (set_main_rng env seed fresh) seed)).num_envs := by
    simp
    omega
  rw [reset_eq_core, hflag]
  simp only [ite_true]
  rw [reset_core_error _ _ _ hne rfl]

/-- Witness for C3: an explicitly requested reconfigure combined with a
one-of-two replica subset is rejected. -/
theorem C3_witness :
    (reset sampleEnvB Option.none ⟨true, some [0]⟩ 0).2 =
      Except.error "Cannot do a partial reset and reconfigure the environment. You must do one or the other." :=
  C3_subset_reconfigure_error sampleEnvB Option.none 0 true [0] (by decide)
    (Or.inl rfl)

/-- C9: when `reset` both triggers reconfiguration and receives an
`env_idx` strictly smaller than `num_envs`, the `RuntimeError` is raised
only after `_reconfigure` has already torn down and rebuilt the scene
(the scene generation advanced and the reconfiguration counter was
already reset to the configured frequency), so the environment state is
not left unchanged by the failed call. -/
theorem C9_error_not_atomic (env : EnvState) (seed : Option Nat)
    (fresh : Nat) (rc : Bool) (idx : List Nat)
    (hlen : idx.length < env.num_envs)
    (htrig : rc = true ∨
      (env.reconfig_counter = 0 ∧ env.reconfiguration_freq ≠ 0)) :
    (reset env seed ⟨rc, some idx⟩ fresh).2 =
      Except.error "Cannot do a partial reset and reconfigure the environment. You must do one or the other." ∧
    (reset env seed ⟨rc, some idx⟩ fresh).1.scene_version =
      env.scene_version + 1 ∧
    (reset env seed ⟨rc, some idx⟩ fresh).1.reconfig_counter =
      (env.reconfiguration_freq : Int) := by
  have hflag : reconfigure_flag env ⟨rc, some idx⟩ = true := by
    rcases htrig with h | ⟨h1, h2⟩
    · simp [reconfigure_flag, h]
    · simp [reconfigure_flag, h1, h2]
  have hne : idx.length ≠
      (reconfigure_env (set_episode_rng (set_main_rng env seed fresh) seed)).num_envs := by
    simp
    omega
  rw [reset_eq_core, hflag]
  simp only [ite_true]
  rw [reset_core_error _ _ _ hne rfl]
  refine ⟨rfl, by simp, by simp⟩

/-- Witness for C9: the counter-triggered reconfiguration with a
one-of-two replica subset errors with the scene already rebuilt once. -/
theorem C9_witness :
    (reset sampleEnvB Option.none ⟨false, some [0]⟩ 0).1.scene_version =
      sampleEnvB.scene_version + 1 :=
  (C9_error_not_atomic sampleEnvB Option.none 0 false [0] (by decide)
    (Or.inr ⟨rfl, by decide⟩)).2.1

/-- C4: whenever `step` returns, the terminated flag equals the
element-wise logical OR of `info["success"]` and `info["fail"]`, an absent
key being treated as all-false (so with neither key terminated is
all-false), and the truncated flag is an all-false vector of length
`num_envs`. -/
theorem C4_terminated_truncated (env : EnvState) (info : Info) (out : StepOut)
    (hs : ∀ s, info.success = some s → s.length = env.num_envs)
    (hf : ∀ f, info.fail = some f → f.length = env.num_envs)
    (h : (step env info).2 = Except.ok out) :
    out.terminated = terminated_spec env.num_envs info ∧
    out.truncated = List.replicate env.num_envs false := by
  obtain ⟨ht, htr⟩ := step_ok_out env info out h
  exact ⟨by rw [ht, compute_terminated_eq_spec env.num_envs info hs hf], htr⟩

/-- Witness for C4 at a concrete one-replica sparse-reward environment. -/
theorem C4_witness :
    (⟨[1], [true], [false]⟩ : StepOut).terminated =
      terminated_spec sampleEnvA.num_envs ⟨some [true], some [false]⟩ ∧
    (⟨[1], [true], [false]⟩ : StepOut).truncated =
      List.replicate sampleEnvA.num_envs false :=
  C4_terminated_truncated sampleEnvA ⟨some [true], some [false]⟩
    ⟨[1], [true], [false]⟩
    (by intro s hs; cases hs; rfl) (by intro f hf; cases hf; rfl) rfl

/-- C5: after a full reset followed by `k` consecutive `step` calls,
`elapsed_steps` equals `k` for every one of the `num_envs` replicas
whatever the per-step success/fail outcomes were (termination does not
mask the increment); `step` increments every replica's counter
unconditionally; and a partial reset zeroes the counters of exactly the
replicas in `env_idx`. -/
theorem C5_elapsed_accounting (env : EnvState) (seed : Option Nat) (rc : Bool)
    (fresh : Nat) (infos : List Info) (idx : List Nat) (j : Nat) (b : Bool)
    (hlen : env.elapsed_steps.length = env.num_envs)
    (hj : j < env.num_envs) :
    (run_steps (reset env seed ⟨rc, Option.none⟩ fresh).1 infos).elapsed_steps =
      List.replicate env.num_envs infos.length ∧
    (∀ e i, ((step e i).1).elapsed_steps = e.elapsed_steps.map (· + 1)) ∧
    ((reset env seed ⟨rc, some idx⟩ fresh).2 = Except.ok b →
      ((reset env seed ⟨rc, some idx⟩ fresh).1).elapsed_steps.getD j 0 =
        if j ∈ idx then 0 else env.elapsed_steps.getD j 0) := by
  refine ⟨?_, ?_, ?_⟩
  · rw [run_steps_elapsed]
    rw [reset_eq_core, reset_core_none_elapsed, env3_elapsed, env3_num_envs]
    rw [zero_at_range env.elapsed_steps env.num_envs (le_of_eq hlen)]
    rw [hlen, List.map_replicate]
    simp
  · intro e i
    exact (step_fst e i).1
  · intro h
    rw [reset_eq_core] at h ⊢
    rw [reset_core_some_ok_elapsed _ _ b _ h]
    rw [env3_elapsed]
    exact getD_zero_at j env.elapsed_steps idx (by omega)

/-- Witness for C5: two steps after a full reset of a two-replica
environment leave both counters at 2, the first step having reported
success for both replicas. -/
theorem C5_witness :
    (run_steps (reset sampleEnvB Option.none ⟨false, Option.none⟩ 0).1
        [⟨some [true, true], Option.none⟩,
          ⟨Option.none, Option.none⟩]).elapsed_steps =
      List.replicate sampleEnvB.num_envs 2 :=
  (C5_elapsed_accounting sampleEnvB Option.none false 0
    [⟨some [true, true], Option.none⟩, ⟨Option.none, Option.none⟩]
    [] 0 false rfl (by decide)).1

/-- C6: on a `reset(seed, options)` call, the scene is torn down and
rebuilt exactly when `options["reconfigure"]` is true or the
reconfiguration counter is zero with a nonzero configured reconfiguration
frequency; and `_reconfigure` itself resets the counter to the configured
frequency. -/
theorem C6_reconfiguration_trigger (env : EnvState) (seed : Option Nat)
    (rc : Bool) (oidx : Option (List Nat)) (fresh : Nat) :
    ((reset env seed ⟨rc, oidx⟩ fresh).1.scene_version =
      if rc = true ∨ (env.reconfig_counter = 0 ∧ env.reconfiguration_freq ≠ 0)
      then env.scene_version + 1 else env.scene_version) ∧
    ((reset env seed ⟨rc, oidx⟩ fresh).1.scene_version =
        env.scene_version + 1 ↔
      (rc = true ∨ (env.reconfig_counter = 0 ∧ env.reconfiguration_freq ≠ 0))) ∧
    (∀ e : EnvState, (reconfigure_env e).reconfig_counter =
      (e.reconfiguration_freq : Int)) := by
  have hiff : reconfigure_flag env ⟨rc, oidx⟩ = true ↔
      (rc = true ∨ (env.reconfig_counter = 0 ∧ env.reconfiguration_freq ≠ 0)) := by
    simp [reconfigure_flag]
  have hmain : (reset env seed ⟨rc, oidx⟩ fresh).1.scene_version =
      if rc = true ∨ (env.reconfig_counter = 0 ∧ env.reconfiguration_freq ≠ 0)
      then env.scene_version + 1 else env.scene_version := by
    rw [reset_eq_core, reset_core_fst_scene, env3_scene]
    by_cases hc : rc = true ∨
        (env.reconfig_counter = 0 ∧ env.reconfiguration_freq ≠ 0)
    · rw [if_pos (hiff.mpr hc), if_pos hc]
    · rw [if_neg (fun h => hc (hiff.mp h)), if_neg hc]
  refine ⟨hmain, ?_, fun e => by simp⟩
  rw [hmain]
  by_cases hc : rc = true ∨
      (env.reconfig_counter = 0 ∧ env.reconfiguration_freq ≠ 0)
  · simp [hc]
  · simp only [if_neg hc]
    constructor
    · intro h
      omega
    · intro h
      exact absurd h hc

/-- C7: one `step` call invokes the external physics `scene.step()`
exactly `sim_freq / control_freq` (floor division) times, the count stored
at construction; a non-divisible frequency pair only sets the warning
flag, construction never fails on it; and with `sim_freq=100`,
`control_freq=20` the sub-step count is exactly 5 with no warning. -/
theorem C7_substep_count (env : EnvState) (info : Info) (s c : Nat)
    (h : env.sim_steps_per_control = (init_freq_result s c).2) :
    (step env info).1.physics_steps = env.physics_steps + s / c ∧
    ((init_freq_result s c).1 = true ↔ s % c ≠ 0) ∧
    init_freq_result 100 20 = (false, 5) := by
  refine ⟨?_, ?_, by decide⟩
  · rw [(step_fst env info).2.1, h]
    rfl
  · simp [init_freq_result]

/-- Witness for C7: a step on the sample environment (built with sub-step
count 100/20 = 5) advances the physics sub-step counter by 5. -/
theorem C7_witness :
    (step sampleEnvA ⟨Option.none, Option.none⟩).1.physics_steps =
      sampleEnvA.physics_steps + 100 / 20 :=
  (C7_substep_count sampleEnvA ⟨Option.none, Option.none⟩ 100 20 rfl).1

/-- C8: calling the main-RNG setter with no seed while a main seed exists
is a no-op (the whole state, main seed and main generator stream included,
is unchanged); with no seed and no existing main seed it draws a fresh
31-bit seed from ambient entropy and (re)initializes the main generator;
with an explicit seed it (re)initializes the main generator from it. -/
theorem C8_set_main_rng_contract (env : EnvState) (fresh : Nat) (s : Nat) :
    (env.main_seed.isSome = true → set_main_rng env Option.none fresh = env) ∧
    (env.main_seed = Option.none →
      set_main_rng env Option.none fresh =
        { env with main_seed := some (fresh % 2 ^ 31),
                   main_rng := rngInit (fresh % 2 ^ 31) }) ∧
    (set_main_rng env (some s) fresh =
      { env with main_seed := some s, main_rng := rngInit s }) ∧
    fresh % 2 ^ 31 < 2 ^ 31 := by
  refine ⟨?_, ?_, rfl, Nat.mod_lt _ (by norm_num)⟩
  · intro h
    cases hm : env.main_seed with
    | none => rw [hm] at h; simp at h
    | some v => simp [set_main_rng, hm]
  · intro h
    simp [set_main_rng, h]

/-- Witness for C8: on the sample environment (which has a main seed) the
seedless call is a no-op, and an explicit seed re-seeds the generator. -/
theorem C8_witness :
    set_main_rng sampleEnvA Option.none 5 = sampleEnvA ∧
    set_main_rng sampleEnvA (some 9) 5 =
      { sampleEnvA with main_seed := some 9, main_rng := rngInit 9 } := by
  have h := C8_set_main_rng_contract sampleEnvA 5 9
  exact ⟨h.1 rfl, h.2.2.1⟩

end ManiSkill
